import Mathlib

/-!
Shallow embedding of the appeal workflow of `src/fedbot.py` (repository
FedBotAppeal).  The Telegram transport and MongoDB driver are modelled at
their interface boundary: a handler takes the current database contents and
the per-user conversational state and returns the new state together with
the list of outbound messages it produced.  Fallible external calls
(the MongoDB insert, the best-effort Telegram notification) are modelled by
Boolean oracles saying whether the call succeeds; when such a call raises,
control transfers exactly as the try/except structure of the source
dictates.
-/

namespace FedBot

/-- A BSON `_id` value.  `insert_one` in pymongo generates an `ObjectId`
when the inserted document carries no `_id` field (as `appeal_data` in
`handle_appeal_text` does not); a query filter may instead carry a plain
string, as `approve`/`reject`/`view_appeal` build from `context.args[0]`.
In BSON an ObjectId and a string are distinct types and never compare
equal, which the two constructors capture. -/
inductive MongoId where
  | oid (n : Nat)
  | str (s : String)
deriving DecidableEq, Repr

/-- The textual rendering `str(result.inserted_id)` of a generated
ObjectId (stand-in for the 24-hex-digit form; only injectivity and the
type distinction matter). -/
def oidStr (n : Nat) : String := toString n

/-- One document of the `appeals` collection, with the exact fields built
at fedbot.py lines 137-145 (the redundant human-readable `timestamp`
string is a function of `created_at` and is omitted). -/
structure Appeal where
  id : MongoId
  user_id : Int
  username : String
  appeal_type : String
  appeal_text : String
  status : String
  created_at : Nat
deriving DecidableEq, Repr

/-- The `appeals` collection plus the ObjectId generator state: every id
pymongo has generated so far is `.oid k` with `k < nextOid`. -/
structure DB where
  appeals : List Appeal
  nextOid : Nat
deriving DecidableEq, Repr

/-- The configuration the handlers read (config.py): the single
administrator identity, an integer after `Config.validate`. -/
structure Config where
  ADMIN_ID : Int
deriving DecidableEq, Repr

/-- The fields of a Telegram user object that `handle_appeal_text`
reads. -/
structure TgUser where
  id : Int
  username : Option String
  first_name : Option String
  last_name : Option String
deriving DecidableEq, Repr

/-- Python `a or b` on an optional string: `None` and `""` are falsy. -/
def pyOrStr : Option String → String → String
  | some s, b => if s = "" then b else s
  | none, b => b

/-- The expression `user.username or f"{user.first_name or ''} {user.last_name or ''}".strip()`
of fedbot.py line 139. -/
def displayName (u : TgUser) : String :=
  pyOrStr u.username ((pyOrStr u.first_name "" ++ " " ++ pyOrStr u.last_name "").trim)

/-- The per-user conversational draft held in `context.user_data`.  The
source stores two dict keys, set together by `handle_appeal_type` (lines
118-119) and deleted together by `handle_appeal_text` (lines 173-174);
a deleted pair is modelled by `expecting_appeal_text = false` (the
`appeal_type` key is only ever read after the flag test passes). -/
structure UserData where
  expecting_appeal_text : Bool
  appeal_type : String
deriving DecidableEq, Repr

/-- The semantic content of each distinct outbound message the modelled
handlers produce, one constructor per `reply_text`/`send_message` call
site, carrying the data interpolated into the format string there. -/
inductive Msg where
  | accessDenied
  | dbError
  | submittedOk (appeal_type : String) (appeal_id : String)
  | newAppealAdmin (appeal_id : String) (username : String) (user_id : Int)
      (appeal_type : String) (text : String)
  | noPending
  | pendingList (appeals : List Appeal)
  | usageView
  | viewNotFound (appeal_id : String)
  | viewDetail (a : Appeal)
  | usageApprove
  | usageReject
  | notFoundOrProcessed (appeal_id : String)
  | approvedOk (appeal_id : String)
  | approveUserNote (appeal_type : String) (appeal_id : String) (text : String)
  | approveNotifyFailed
  | rejectedOk (appeal_id : String)
  | rejectUserNote (appeal_type : String) (appeal_id : String) (text : String)
  | rejectNotifyFailed
deriving DecidableEq, Repr

/-- An observable outbound effect: `update.message.reply_text` (to the
invoking chat) or `context.bot.send_message` (to an explicit chat id). -/
inductive Eff where
  | reply (m : Msg)
  | send (chat_id : Int) (m : Msg)
deriving DecidableEq, Repr

/-- Result of one `handle_appeal_text` invocation: new collection state,
new per-user draft state, new `user_appeals` module dict, and the
outbound messages in order. -/
structure SubmitOut where
  db : DB
  user_data : UserData
  user_appeals : List (Int × String)
  effs : List Eff
deriving DecidableEq, Repr

/-- fedbot.py `handle_appeal_text` (lines 125-183).  `dbOk` says whether
`insert_one` succeeds (otherwise it raises `PyMongoError`, caught at line
178: an error reply, and the draft-clearing `del` statements at lines
173-176 never run).  `notifyAdminOk` says whether the admin notification
`send_message` succeeds (otherwise `TelegramError`, caught at line 168 and
only logged).  Replies themselves are assumed delivered. -/
def handle_appeal_text (cfg : Config) (db : DB) (ud : UserData)
    (userAppeals : List (Int × String)) (user : TgUser) (text : String)
    (now : Nat) (dbOk : Bool) (notifyAdminOk : Bool) : SubmitOut :=
  if ud.expecting_appeal_text = false then
    ⟨db, ud, userAppeals, []⟩
  else if dbOk = false then
    ⟨db, ud, userAppeals, [.reply .dbError]⟩
  else
    let appeal_type := ud.appeal_type
    let appeal_data : Appeal :=
      { id := .oid db.nextOid
        user_id := user.id
        username := displayName user
        appeal_type := appeal_type
        appeal_text := text
        status := "pending"
        created_at := now }
    let appeal_id := oidStr db.nextOid
    let db' : DB := ⟨db.appeals ++ [appeal_data], db.nextOid + 1⟩
    let effs :=
      [Eff.reply (.submittedOk appeal_type appeal_id)] ++
      (if notifyAdminOk then
        [Eff.send cfg.ADMIN_ID
          (.newAppealAdmin appeal_id appeal_data.username user.id appeal_type text)]
      else [])
    ⟨db', ⟨false, ""⟩, userAppeals.filter (fun p => p.1 ≠ user.id), effs⟩

/-- Insert into a list already sorted by `created_at` descending (the
order `.sort("created_at", -1)` yields). -/
def insertByCreatedDesc (a : Appeal) : List Appeal → List Appeal
  | [] => [a]
  | b :: bs =>
    if a.created_at ≤ b.created_at then b :: insertByCreatedDesc a bs
    else a :: b :: bs

/-- Sort by `created_at` descending. -/
def sortByCreatedDesc (l : List Appeal) : List Appeal :=
  l.foldr insertByCreatedDesc []

/-- The query of fedbot.py line 195:
`db.appeals.find({"status": "pending"}).sort("created_at", -1).limit(50)`. -/
def pendingQuery (db : DB) : List Appeal :=
  (sortByCreatedDesc (db.appeals.filter (fun a => a.status = "pending"))).take 50

/-- fedbot.py `pending` (lines 186-222), the listPending entry point.  The
chunked formatting of the reply is abstracted into one `pendingList`
message carrying the queried appeals in order. -/
def pending (cfg : Config) (db : DB) (caller : Int) : DB × List Eff :=
  if caller ≠ cfg.ADMIN_ID then
    (db, [.reply .accessDenied])
  else
    let appeals := pendingQuery db
    if appeals.isEmpty then (db, [.reply .noPending])
    else (db, [.reply (.pendingList appeals)])

/-- The read `db.appeals.find_one(filter)` with an `_id` equality filter. -/
def find_one (db : DB) (qid : MongoId) : Option Appeal :=
  db.appeals.find? (fun a => a.id = qid)

/-- fedbot.py `view_appeal` (lines 224-264), the getDetail entry point. -/
def view_appeal (cfg : Config) (db : DB) (caller : Int) (args : List String) :
    DB × List Eff :=
  if caller ≠ cfg.ADMIN_ID then
    (db, [.reply .accessDenied])
  else
    match args with
    | [] => (db, [.reply .usageView])
    | appeal_id :: _ =>
      match find_one db (.str appeal_id) with
      | none => (db, [.reply (.viewNotFound appeal_id)])
      | some a => (db, [.reply (.viewDetail a)])

/-- The conditional update `db.appeals.find_one_and_update({"_id": qid, "status": "pending"},
{"$set": {"status": newStatus}}, return_document=True)`: atomically update
the first document matching both the id and the pending status, returning
the post-update document; leave everything else untouched. -/
def find_one_and_update (l : List Appeal) (qid : MongoId) (newStatus : String) :
    Option Appeal × List Appeal :=
  match l with
  | [] => (none, [])
  | a :: rest =>
    if a.id = qid ∧ a.status = "pending" then
      (some { a with status := newStatus }, { a with status := newStatus } :: rest)
    else
      ((find_one_and_update rest qid newStatus).1,
       a :: (find_one_and_update rest qid newStatus).2)

/-- fedbot.py `approve` (lines 266-312).  `dbOk` says whether the
`find_one_and_update` call succeeds (otherwise `PyMongoError`, caught at
line 307).  `notifyOk` says whether the `send_message` to the submitting
user succeeds; on `TelegramError` (caught at line 301) the admin gets the
extra failure reply of line 303 and nothing else changes.  Note the filter
id is `MongoId.str appeal_id`: the handler passes the raw string from
`context.args[0]` straight into the filter. -/
def approve (cfg : Config) (db : DB) (caller : Int) (args : List String)
    (dbOk : Bool) (notifyOk : Bool) : DB × List Eff :=
  if caller ≠ cfg.ADMIN_ID then
    (db, [.reply .accessDenied])
  else
    match args with
    | [] => (db, [.reply .usageApprove])
    | appeal_id :: _ =>
      if dbOk = false then (db, [.reply .dbError])
      else
        let r := find_one_and_update db.appeals (.str appeal_id) "approved"
        match r.1 with
        | none => (db, [.reply (.notFoundOrProcessed appeal_id)])
        | some appeal =>
          (⟨r.2, db.nextOid⟩,
            [Eff.reply (.approvedOk appeal_id)] ++
            (if notifyOk then
              [Eff.send appeal.user_id
                (.approveUserNote appeal.appeal_type appeal_id appeal.appeal_text)]
            else [Eff.reply .approveNotifyFailed]))

/-- fedbot.py `reject` (lines 314-361), symmetric to `approve` with target
status `"rejected"`. -/
def reject (cfg : Config) (db : DB) (caller : Int) (args : List String)
    (dbOk : Bool) (notifyOk : Bool) : DB × List Eff :=
  if caller ≠ cfg.ADMIN_ID then
    (db, [.reply .accessDenied])
  else
    match args with
    | [] => (db, [.reply .usageReject])
    | appeal_id :: _ =>
      if dbOk = false then (db, [.reply .dbError])
      else
        let r := find_one_and_update db.appeals (.str appeal_id) "rejected"
        match r.1 with
        | none => (db, [.reply (.notFoundOrProcessed appeal_id)])
        | some appeal =>
          (⟨r.2, db.nextOid⟩,
            [Eff.reply (.rejectedOk appeal_id)] ++
            (if notifyOk then
              [Eff.send appeal.user_id
                (.rejectUserNote appeal.appeal_type appeal_id appeal.appeal_text)]
            else [Eff.reply .rejectNotifyFailed]))

/-- The aggregate read `db.appeals.count_documents(filter)`. -/
def count_documents (db : DB) (p : Appeal → Bool) : Nat :=
  (db.appeals.filter p).length

/-- A Python exception escaping a handler uncaught. -/
inductive PyErr where
  | nameError (n : String)
deriving DecidableEq, Repr

set_option linter.unusedVariables false

/-- fedbot.py `stats` (lines 363-417).  The four status counts and the
per-type grouping are computed, but the recent-activity query at line 388
evaluates `datetime.utcnow() - timedelta(days=1)` while fedbot.py imports
only `datetime` from the datetime module (line 2) and never `timedelta`:
the name is unbound, so a `NameError` is raised before any reply is sent,
and neither `except PyMongoError` (line 412) nor `except TelegramError`
(line 416) catches it — it escapes to the dispatcher error handler. -/
def stats (cfg : Config) (db : DB) (caller : Int) :
    Except PyErr (DB × List Eff) :=
  if caller ≠ cfg.ADMIN_ID then
    .ok (db, [.reply .accessDenied])
  else
    let total := count_documents db (fun _ => true)
    let pendingCount := count_documents db (fun a => a.status = "pending")
    let approvedCount := count_documents db (fun a => a.status = "approved")
    let rejectedCount := count_documents db (fun a => a.status = "rejected")
    .error (.nameError "timedelta")

/-! Concrete sample values used by the scenario theorems and witnesses. -/

/-- A configuration whose single administrator identity is 99. -/
def cfgDemo : Config := ⟨99⟩

/-- A submitting user with id 1. -/
def user1 : TgUser := ⟨1, some "alice", none, none⟩

/-- The spec scenario submission: user 1 submits an unban appeal reading
"please" against an empty store (both external calls succeed). -/
def submitOut1 : SubmitOut :=
  handle_appeal_text cfgDemo ⟨[], 0⟩ ⟨true, "unban"⟩ [] user1 "please" 0 true true

/-- C1: the claim says that approving with the id returned by a successful
submit succeeds and notifies the submitter.  The code stores the new
document under a generated ObjectId but filters `approve` by the raw
string form of that id, which matches no ObjectId, so approve replies
"not found or already processed", mutates nothing, and sends no
notification: after submit by user 1 returns id `oidStr 0`, approving that
id leaves the single appeal pending and produces only the not-found
reply. -/
theorem approve_with_returned_id_fails :
    Eff.reply (Msg.submittedOk "unban" (oidStr 0)) ∈ submitOut1.effs
    ∧ submitOut1.db.appeals.map (fun a => a.status) = ["pending"]
    ∧ approve cfgDemo submitOut1.db 99 [oidStr 0] true true
        = (submitOut1.db, [.reply (.notFoundOrProcessed (oidStr 0))]) := by
  decide

/-- C4: the claim says a second approve on the same appeal returns
NotFound after a first successful approve.  In the code the first approve
already fails: both calls, made in sequence with the id string the submit
returned, reply "not found or already processed" and the appeal stays
pending throughout. -/
theorem double_approve_first_already_fails :
    approve cfgDemo submitOut1.db 99 [oidStr 0] true true
      = (submitOut1.db, [.reply (.notFoundOrProcessed (oidStr 0))])
    ∧ approve cfgDemo
        (approve cfgDemo submitOut1.db 99 [oidStr 0] true true).1
        99 [oidStr 0] true true
      = (submitOut1.db, [.reply (.notFoundOrProcessed (oidStr 0))])
    ∧ submitOut1.db.appeals.map (fun a => a.status) = ["pending"] := by
  decide

/-- A store with exactly 2 approved, 1 rejected and 1 pending appeal. -/
def statsDB : DB :=
  ⟨[⟨.oid 0, 1, "a", "unban", "t0", "approved", 0⟩,
    ⟨.oid 1, 2, "b", "unban", "t1", "approved", 1⟩,
    ⟨.oid 2, 3, "c", "admin", "t2", "rejected", 2⟩,
    ⟨.oid 3, 4, "d", "unban", "t3", "pending", 3⟩], 4⟩

/-- C6: the claim says getStats succeeds and reports
total 4, pending 1, approved 2, rejected 1 on this store.  The counts
the code computes do have those values, but `stats` never reports them:
it raises NameError on the unimported `timedelta` before sending any
reply. -/
theorem stats_raises_nameError :
    count_documents statsDB (fun _ => true) = 4
    ∧ count_documents statsDB (fun a => a.status = "pending") = 1
    ∧ count_documents statsDB (fun a => a.status = "approved") = 2
    ∧ count_documents statsDB (fun a => a.status = "rejected") = 1
    ∧ stats cfgDemo statsDB 99 = .error (.nameError "timedelta") := by
  refine ⟨by decide, by decide, by decide, by decide, rfl⟩

/-- C3: any caller other than the configured administrator is denied by
approve, reject, pending (listPending) and view_appeal (getDetail): each
replies only "Access denied" and returns the store unchanged. -/
theorem non_admin_denied (cfg : Config) (db : DB) (caller : Int)
    (args : List String) (dbOk notifyOk : Bool) (h : caller ≠ cfg.ADMIN_ID) :
    approve cfg db caller args dbOk notifyOk = (db, [.reply .accessDenied])
    ∧ reject cfg db caller args dbOk notifyOk = (db, [.reply .accessDenied])
    ∧ pending cfg db caller = (db, [.reply .accessDenied])
    ∧ view_appeal cfg db caller args = (db, [.reply .accessDenied]) := by
  refine ⟨?_, ?_, ?_, ?_⟩ <;> simp [approve, reject, pending, view_appeal, h]

/-- Witness for C3 at caller 1 against administrator 99. -/
theorem non_admin_denied_witness :
    (1 : Int) ≠ (99 : Int)
    ∧ (approve ⟨99⟩ ⟨[], 0⟩ 1 ["0"] true true = (⟨[], 0⟩, [.reply .accessDenied])
       ∧ reject ⟨99⟩ ⟨[], 0⟩ 1 ["0"] true true = (⟨[], 0⟩, [.reply .accessDenied])
       ∧ pending ⟨99⟩ ⟨[], 0⟩ 1 = (⟨[], 0⟩, [.reply .accessDenied])
       ∧ view_appeal ⟨99⟩ ⟨[], 0⟩ 1 ["0"] = (⟨[], 0⟩, [.reply .accessDenied])) :=
  ⟨by decide, non_admin_denied ⟨99⟩ ⟨[], 0⟩ 1 ["0"] true true (by decide)⟩

/-- C9: a text message from a user whose draft flag is not set makes
handle_appeal_text return immediately: store, draft state and the
user_appeals dict are unchanged and no message of any kind goes out. -/
theorem no_draft_noop (cfg : Config) (db : DB) (ud : UserData)
    (ua : List (Int × String)) (user : TgUser) (text : String) (now : Nat)
    (dbOk notifyAdminOk : Bool) (h : ud.expecting_appeal_text = false) :
    handle_appeal_text cfg db ud ua user text now dbOk notifyAdminOk
      = ⟨db, ud, ua, []⟩ := by
  simp [handle_appeal_text, h]

/-- Witness for C9: user 1 with a cleared draft sends "hello". -/
theorem no_draft_noop_witness :
    (UserData.mk false "").expecting_appeal_text = false
    ∧ handle_appeal_text cfgDemo ⟨[], 0⟩ ⟨false, ""⟩ [] user1 "hello" 0 true true
        = ⟨⟨[], 0⟩, ⟨false, ""⟩, [], []⟩ :=
  ⟨rfl, no_draft_noop cfgDemo ⟨[], 0⟩ ⟨false, ""⟩ [] user1 "hello" 0 true true rfl⟩

/-- C10: when the insert raises a storage error, handle_appeal_text
replies with the database-error message and changes nothing else — in
particular the draft flag and selected appeal type survive — and a later
invocation on the same state with a working store inserts a pending appeal
carrying that same appeal type. -/
theorem draft_kept_on_db_error (cfg : Config) (db : DB) (ud : UserData)
    (ua : List (Int × String)) (user : TgUser) (text text2 : String)
    (now now2 : Nat) (nOk nOk2 : Bool)
    (h : ud.expecting_appeal_text = true) :
    handle_appeal_text cfg db ud ua user text now false nOk
      = ⟨db, ud, ua, [.reply .dbError]⟩
    ∧ (handle_appeal_text cfg db ud ua user text2 now2 true nOk2).db.appeals
        = db.appeals ++
          [{ id := .oid db.nextOid, user_id := user.id,
             username := displayName user, appeal_type := ud.appeal_type,
             appeal_text := text2, status := "pending", created_at := now2 }] := by
  constructor
  · simp [handle_appeal_text, h]
  · simp [handle_appeal_text, h]

/-- Witness for C10: the insert for the text "first try" fails, the draft
survives, and resending "second try" creates the unban appeal. -/
theorem draft_kept_on_db_error_witness :
    (UserData.mk true "unban").expecting_appeal_text = true
    ∧ (handle_appeal_text cfgDemo ⟨[], 0⟩ ⟨true, "unban"⟩ [] user1 "first try" 0 false true
        = ⟨⟨[], 0⟩, ⟨true, "unban"⟩, [], [.reply .dbError]⟩
      ∧ (handle_appeal_text cfgDemo ⟨[], 0⟩ ⟨true, "unban"⟩ [] user1 "second try" 1 true true).db.appeals
        = [] ++ [{ id := .oid 0, user_id := 1, username := displayName user1,
                   appeal_type := "unban", appeal_text := "second try",
                   status := "pending", created_at := 1 }]) :=
  ⟨rfl, draft_kept_on_db_error cfgDemo ⟨[], 0⟩ ⟨true, "unban"⟩ [] user1
    "first try" "second try" 0 1 true true rfl⟩

/-- C2 counterexample: with an active unban draft, submitting the empty
string is not rejected — handle_appeal_text inserts a pending appeal whose
text is empty and replies with its id, so the store does change. -/
theorem empty_text_inserted :
    (handle_appeal_text cfgDemo ⟨[], 0⟩ ⟨true, "unban"⟩ [] user1 "" 0 true true).db.appeals
      = [⟨.oid 0, 1, "alice", "unban", "", "pending", 0⟩]
    ∧ Eff.reply (Msg.submittedOk "unban" (oidStr 0))
        ∈ (handle_appeal_text cfgDemo ⟨[], 0⟩ ⟨true, "unban"⟩ [] user1 "" 0 true true).effs := by
  decide

/-- C2 amended: handle_appeal_text performs no validation of the message
text — an empty submission is accepted exactly like any other, creating
one pending appeal with empty text and replying with the new id. -/
theorem empty_text_accepted (cfg : Config) (db : DB) (ud : UserData)
    (ua : List (Int × String)) (user : TgUser) (now : Nat) (nOk : Bool)
    (h : ud.expecting_appeal_text = true) :
    (handle_appeal_text cfg db ud ua user "" now true nOk).db.appeals
      = db.appeals ++
        [{ id := .oid db.nextOid, user_id := user.id,
           username := displayName user, appeal_type := ud.appeal_type,
           appeal_text := "", status := "pending", created_at := now }]
    ∧ Eff.reply (Msg.submittedOk ud.appeal_type (oidStr db.nextOid))
        ∈ (handle_appeal_text cfg db ud ua user "" now true nOk).effs := by
  constructor
  · simp [handle_appeal_text, h]
  · simp [handle_appeal_text, h]

/-- Witness for the amended C2 at a concrete empty-text submission. -/
theorem empty_text_accepted_witness :
    (UserData.mk true "unban").expecting_appeal_text = true
    ∧ ((handle_appeal_text cfgDemo ⟨[], 0⟩ ⟨true, "unban"⟩ [] user1 "" 0 true true).db.appeals
        = [] ++ [{ id := .oid 0, user_id := 1, username := displayName user1,
                   appeal_type := "unban", appeal_text := "",
                   status := "pending", created_at := 0 }]
      ∧ Eff.reply (Msg.submittedOk "unban" (oidStr 0))
          ∈ (handle_appeal_text cfgDemo ⟨[], 0⟩ ⟨true, "unban"⟩ [] user1 "" 0 true true).effs) :=
  ⟨rfl, empty_text_accepted cfgDemo ⟨[], 0⟩ ⟨true, "unban"⟩ [] user1 0 true rfl⟩

/-- The newest-first order on appeals: the left one was created no
earlier than the right one. -/
abbrev createdGe (x y : Appeal) : Prop := y.created_at ≤ x.created_at

/-- Membership in an insertion: the inserted appeal or an old one. -/
theorem mem_insertByCreatedDesc {x a : Appeal} {l : List Appeal} :
    x ∈ insertByCreatedDesc a l ↔ x = a ∨ x ∈ l := by
  induction l with
  | nil => simp [insertByCreatedDesc]
  | cons b bs ih =>
    by_cases h : a.created_at ≤ b.created_at
    · simp only [insertByCreatedDesc, if_pos h, List.mem_cons, ih]
      tauto
    · simp only [insertByCreatedDesc, if_neg h, List.mem_cons]

/-- Inserting into a newest-first list keeps it newest-first. -/
theorem pairwise_insertByCreatedDesc {a : Appeal} {l : List Appeal}
    (h : l.Pairwise createdGe) :
    (insertByCreatedDesc a l).Pairwise createdGe := by
  induction l with
  | nil => simp [insertByCreatedDesc]
  | cons b bs ih =>
    obtain ⟨hb, hbs⟩ := List.pairwise_cons.mp h
    by_cases hc : a.created_at ≤ b.created_at
    · simp only [insertByCreatedDesc, if_pos hc]
      refine List.pairwise_cons.mpr ⟨?_, ih hbs⟩
      intro x hx
      rcases mem_insertByCreatedDesc.mp hx with rfl | hx
      · exact hc
      · exact hb x hx
    · simp only [insertByCreatedDesc, if_neg hc]
      refine List.pairwise_cons.mpr ⟨?_, h⟩
      intro x hx
      rcases List.mem_cons.mp hx with rfl | hx
      · show x.created_at ≤ a.created_at
        omega
      · have h1 : x.created_at ≤ b.created_at := hb x hx
        show x.created_at ≤ a.created_at
        omega

/-- The sort is newest-first. -/
theorem sorted_sortByCreatedDesc (l : List Appeal) :
    (sortByCreatedDesc l).Pairwise createdGe := by
  induction l with
  | nil => simp [sortByCreatedDesc]
  | cons a as ih => exact pairwise_insertByCreatedDesc ih

/-- The sort neither adds nor drops appeals. -/
theorem mem_sortByCreatedDesc {x : Appeal} {l : List Appeal} :
    x ∈ sortByCreatedDesc l ↔ x ∈ l := by
  induction l with
  | nil => simp [sortByCreatedDesc]
  | cons a as ih =>
    show x ∈ insertByCreatedDesc a (sortByCreatedDesc as) ↔ _
    rw [mem_insertByCreatedDesc, ih]
    exact (List.mem_cons).symm

/-- C5: the pending query of the listPending handler returns only appeals
whose status is pending, returns at most 50 of them (the limit the
handler requests), and orders them newest-created-first. -/
theorem pendingQuery_spec (db : DB) :
    (∀ a ∈ pendingQuery db, a.status = "pending")
    ∧ (pendingQuery db).length ≤ 50
    ∧ (pendingQuery db).Pairwise createdGe := by
  refine ⟨?_, ?_, ?_⟩
  · intro a ha
    have h1 : a ∈ sortByCreatedDesc
        (db.appeals.filter (fun a => a.status = "pending")) :=
      List.take_subset _ _ ha
    have h2 := List.mem_filter.mp (mem_sortByCreatedDesc.mp h1)
    exact of_decide_eq_true h2.2
  · exact List.length_take_le _ _
  · exact (sorted_sortByCreatedDesc _).sublist (List.take_sublist _ _)

/-- Witness for C5 at the concrete store `statsDB`. -/
theorem pendingQuery_spec_witness :
    (∀ a ∈ pendingQuery statsDB, a.status = "pending")
    ∧ (pendingQuery statsDB).length ≤ 50
    ∧ (pendingQuery statsDB).Pairwise createdGe :=
  pendingQuery_spec statsDB

/-- The post-update document returned by a successful conditional update
carries the new status and is present in the updated collection. -/
theorem find_one_and_update_some (l : List Appeal) (qid : MongoId)
    (ns : String) (ap : Appeal) (l' : List Appeal)
    (h : find_one_and_update l qid ns = (some ap, l')) :
    ap.status = ns ∧ ap ∈ l' := by
  induction l generalizing l' with
  | nil => simp [find_one_and_update] at h
  | cons a rest ih =>
    rw [find_one_and_update] at h
    by_cases hc : a.id = qid ∧ a.status = "pending"
    · rw [if_pos hc] at h
      simp only [Prod.mk.injEq, Option.some.injEq] at h
      obtain ⟨h1, h2⟩ := h
      subst h1; subst h2
      exact ⟨rfl, List.mem_cons_self _ _⟩
    · rw [if_neg hc] at h
      simp only [Prod.mk.injEq] at h
      obtain ⟨h1, h2⟩ := h
      have hr : find_one_and_update rest qid ns
          = (some ap, (find_one_and_update rest qid ns).2) := by
        rw [← h1]
      obtain ⟨hs, hm⟩ := ih _ hr
      subst h2
      exact ⟨hs, List.mem_cons_of_mem _ hm⟩

/-- C7: once the conditional status update of approve or reject has
committed, a failed notification to the submitter never rolls it back and
never fails the handler: the store keeps the updated collection, the
updated appeal carries its terminal status, and the admin receives the
success reply first, followed only by the could-not-notify reply. -/
theorem notify_failure_keeps_commit (cfg : Config) (db : DB)
    (aid rid : String) (ap rp : Appeal) (l l2 : List Appeal)
    (ha : find_one_and_update db.appeals (.str aid) "approved" = (some ap, l))
    (hr : find_one_and_update db.appeals (.str rid) "rejected" = (some rp, l2)) :
    approve cfg db cfg.ADMIN_ID [aid] true false
      = (⟨l, db.nextOid⟩,
         [.reply (.approvedOk aid), .reply .approveNotifyFailed])
    ∧ ap.status = "approved" ∧ ap ∈ l
    ∧ reject cfg db cfg.ADMIN_ID [rid] true false
      = (⟨l2, db.nextOid⟩,
         [.reply (.rejectedOk rid), .reply .rejectNotifyFailed])
    ∧ rp.status = "rejected" ∧ rp ∈ l2 := by
  obtain ⟨hs1, hm1⟩ := find_one_and_update_some _ _ _ _ _ ha
  obtain ⟨hs2, hm2⟩ := find_one_and_update_some _ _ _ _ _ hr
  refine ⟨?_, hs1, hm1, ?_, hs2, hm2⟩
  · simp [approve, ha]
  · simp [reject, hr]

/-- A store holding two pending appeals whose ids are the strings "x" and
"y", for exercising a successful conditional update. -/
def twoPendingDB : DB :=
  ⟨[⟨.str "x", 1, "a", "unban", "tx", "pending", 0⟩,
    ⟨.str "y", 2, "b", "admin", "ty", "pending", 1⟩], 0⟩

/-- Witness for C7: approving "x" and rejecting "y" on `twoPendingDB`
with failing notifications. -/
theorem notify_failure_keeps_commit_witness :
    find_one_and_update twoPendingDB.appeals (.str "x") "approved"
      = (some ⟨.str "x", 1, "a", "unban", "tx", "approved", 0⟩,
         [⟨.str "x", 1, "a", "unban", "tx", "approved", 0⟩,
          ⟨.str "y", 2, "b", "admin", "ty", "pending", 1⟩])
    ∧ (approve cfgDemo twoPendingDB cfgDemo.ADMIN_ID ["x"] true false
        = (⟨[⟨.str "x", 1, "a", "unban", "tx", "approved", 0⟩,
             ⟨.str "y", 2, "b", "admin", "ty", "pending", 1⟩], 0⟩,
           [.reply (.approvedOk "x"), .reply .approveNotifyFailed])
      ∧ (Appeal.mk (.str "x") 1 "a" "unban" "tx" "approved" 0).status = "approved"
      ∧ (Appeal.mk (.str "x") 1 "a" "unban" "tx" "approved" 0)
          ∈ [⟨.str "x", 1, "a", "unban", "tx", "approved", 0⟩,
             ⟨.str "y", 2, "b", "admin", "ty", "pending", 1⟩]
      ∧ reject cfgDemo twoPendingDB cfgDemo.ADMIN_ID ["y"] true false
        = (⟨[⟨.str "x", 1, "a", "unban", "tx", "pending", 0⟩,
             ⟨.str "y", 2, "b", "admin", "ty", "rejected", 1⟩], 0⟩,
           [.reply (.rejectedOk "y"), .reply .rejectNotifyFailed])
      ∧ (Appeal.mk (.str "y") 2 "b" "admin" "ty" "rejected" 1).status = "rejected"
      ∧ (Appeal.mk (.str "y") 2 "b" "admin" "ty" "rejected" 1)
          ∈ [⟨.str "x", 1, "a", "unban", "tx", "pending", 0⟩,
             ⟨.str "y", 2, "b", "admin", "ty", "rejected", 1⟩]) :=
  ⟨by decide,
   notify_failure_keeps_commit cfgDemo twoPendingDB "x" "y"
     ⟨.str "x", 1, "a", "unban", "tx", "approved", 0⟩
     ⟨.str "y", 2, "b", "admin", "ty", "rejected", 1⟩
     [⟨.str "x", 1, "a", "unban", "tx", "approved", 0⟩,
      ⟨.str "y", 2, "b", "admin", "ty", "pending", 1⟩]
     [⟨.str "x", 1, "a", "unban", "tx", "pending", 0⟩,
      ⟨.str "y", 2, "b", "admin", "ty", "rejected", 1⟩]
     (by decide) (by decide)⟩

/-- C8: a valid submission against a store whose generated ids are all
below the generator counter creates exactly one new appeal record,
appended to the store, with status pending; the submitter is sent the
textual form of its id; and the new id differs from the id of every
appeal created before it. -/
theorem submit_creates_unique (cfg : Config) (db : DB) (ud : UserData)
    (ua : List (Int × String)) (user : TgUser) (text : String) (now : Nat)
    (nOk : Bool) (h : ud.expecting_appeal_text = true) (ht : text ≠ "")
    (hty : ud.appeal_type = "unban" ∨ ud.appeal_type = "admin")
    (hfresh : ∀ a ∈ db.appeals, ∀ n, a.id = .oid n → n < db.nextOid) :
    ∃ newAp : Appeal,
      (handle_appeal_text cfg db ud ua user text now true nOk).db.appeals
        = db.appeals ++ [newAp]
      ∧ newAp.status = "pending"
      ∧ Eff.reply (Msg.submittedOk ud.appeal_type (oidStr db.nextOid))
          ∈ (handle_appeal_text cfg db ud ua user text now true nOk).effs
      ∧ ∀ a ∈ db.appeals, a.id ≠ newAp.id := by
  refine ⟨{ id := .oid db.nextOid, user_id := user.id,
            username := displayName user, appeal_type := ud.appeal_type,
            appeal_text := text, status := "pending", created_at := now },
          ?_, rfl, ?_, ?_⟩
  · simp [handle_appeal_text, h]
  · simp [handle_appeal_text, h]
  · intro a ha hid
    exact absurd (hfresh a ha db.nextOid hid) (Nat.lt_irrefl _)

/-- Witness for C8: the scenario submission of `submitOut1` against the
empty store. -/
theorem submit_creates_unique_witness :
    (UserData.mk true "unban").expecting_appeal_text = true
    ∧ ("please" : String) ≠ ""
    ∧ ∃ newAp : Appeal,
        (handle_appeal_text cfgDemo ⟨[], 0⟩ ⟨true, "unban"⟩ [] user1 "please" 0 true true).db.appeals
          = ([] : List Appeal) ++ [newAp]
        ∧ newAp.status = "pending"
        ∧ Eff.reply (Msg.submittedOk "unban" (oidStr 0))
            ∈ (handle_appeal_text cfgDemo ⟨[], 0⟩ ⟨true, "unban"⟩ [] user1 "please" 0 true true).effs
        ∧ ∀ a ∈ ([] : List Appeal), a.id ≠ newAp.id :=
  ⟨rfl, by decide,
   submit_creates_unique cfgDemo ⟨[], 0⟩ ⟨true, "unban"⟩ [] user1 "please" 0
     true rfl (by decide) (Or.inl rfl) (by simp)⟩

end FedBot
